import Mathlib

/-!
Shallow embedding of `harmonai/training/autoencoders.py`: the
`AutoencoderTrainingWrapper` training step (GAN-style alternating
optimization of an audio autoencoder against a discriminator) and the
`AutoencoderDemoCallback` periodic demo renderer.

External library calls (the autoencoder model, the discriminator, the
auraloss STFT loss, `F.l1_loss`, einops `rearrange`, the viz helpers and
the optimizer update rule) are modelled as oracle functions supplied as
inputs; the control flow, loss combination, optimizer alternation,
warm-up handling, demo gating, exception handling and the int16 wav
conversion are embedded from the source.
-/

namespace Harmonai

/-- A torch float tensor, modelled as a shape and flat rational data. -/
structure Tensor where
  shape : List Nat
  data : List ℚ
deriving DecidableEq

/-- A torch int16 tensor (`.to(torch.int16)` output), flat integer data. -/
structure IntTensor where
  shape : List Nat
  data : List Int
deriving DecidableEq

/-- The autoencoder model: only the `bottleneck` attribute and an abstract
parameter vector are visible to the training wrapper. -/
structure AudioAutoencoder where
  bottleneck : String
  params : ℚ
deriving DecidableEq

/-- The discriminator model, abstract parameters only. -/
structure EncodecDiscriminator where
  params : ℚ
deriving DecidableEq

/-- The info dict returned by `autoencoder.encode(..., return_info=True)`;
the training step only reads its `kl` entry. -/
structure EncoderInfo where
  kl : ℚ
deriving DecidableEq

/-- Oracles for the external calls made by `training_step`: model
encode/decode, the two loss libraries, `latents.std()`, and the effect of
one Adam step on each parameter vector. -/
structure Oracles where
  encode : Tensor → Tensor × EncoderInfo
  decode : Tensor → Tensor
  sdstft : Tensor → Tensor → ℚ
  l1_loss : Tensor → Tensor → ℚ
  disc_loss : Tensor → Tensor → ℚ × ℚ × ℚ
  std : Tensor → ℚ
  adam_gen : ℚ → ℚ
  adam_disc : ℚ → ℚ

/-- State of `AutoencoderTrainingWrapper` visible to `training_step`. -/
structure AutoencoderTrainingWrapper where
  autoencoder : AudioAutoencoder
  discriminator : EncodecDiscriminator
  warmed_up : Bool
  warmup_steps : Nat
  lr : ℚ
deriving DecidableEq

/-- Which parameter collection an optimizer was built over. -/
inductive ParamsRef where
  | autoencoderParams
  | discriminatorParams
deriving DecidableEq

/-- A `torch.optim.Adam` optimizer as configured by the wrapper. -/
structure Adam where
  params : ParamsRef
  lr : ℚ
  beta1 : ℚ
  beta2 : ℚ
deriving DecidableEq

/-- Embedding of `AutoencoderTrainingWrapper.configure_optimizers`. -/
def configure_optimizers (self : AutoencoderTrainingWrapper) : List Adam :=
  [{ params := ParamsRef.autoencoderParams, lr := self.lr, beta1 := 1/2, beta2 := 9/10 },
   { params := ParamsRef.discriminatorParams, lr := self.lr, beta1 := 1/2, beta2 := 9/10 }]

/-- Which of the two optimizers was stepped in a training step. -/
inductive WhichOpt where
  | gen
  | disc
deriving DecidableEq

/-- Observable outcome of one `training_step` call: the mutated wrapper,
the tensor passed to the encoder, the individual loss values (as computed
at lines 73-82 of the source, before generator-side weighting), the loss
returned and the loss passed to `manual_backward`, which optimizer was
stepped, and the dict passed to `log_dict`. -/
structure StepResult where
  wrapper : AutoencoderTrainingWrapper
  encoder_input : Tensor
  mrstft_loss : ℚ
  l1_time_loss : ℚ
  loss_dis : ℚ
  loss_adv : ℚ
  feature_matching_distance : ℚ
  kl : ℚ
  loss : ℚ
  backward_loss : ℚ
  stepped : WhichOpt
  log_dict : List (String × ℚ)
deriving DecidableEq

/-- Embedding of `AutoencoderTrainingWrapper.training_step`, line by line.
Here `global_step` is the Lightning step counter and `batch` is `(reals, _)`. -/
def training_step (self : AutoencoderTrainingWrapper) (global_step : Nat)
    (o : Oracles) (batch : Tensor × Unit) : StepResult :=
  let reals := batch.1
  -- Remove extra dimension added by WebDataset
  let reals :=
    if reals.shape.length = 4 ∧ reals.shape.headD 0 = 1 then
      { shape := reals.shape.tail, data := reals.data.take reals.shape.tail.prod }
    else reals
  let warmed_up := if self.warmup_steps ≤ global_step then true else self.warmed_up
  let latents_info := o.encode reals
  let latents := latents_info.1
  let encoder_info := latents_info.2
  let decoded := o.decode latents
  let mrstft_loss := o.sdstft reals decoded
  let l1_time_loss := o.l1_loss reals decoded
  let dl := if warmed_up then o.disc_loss reals decoded else (0, 0, 0)
  let loss_dis := dl.1
  let loss_adv := dl.2.1
  let feature_matching_distance := dl.2.2
  -- Train the discriminator
  if global_step % 2 ≠ 0 ∧ warmed_up = true then
    { wrapper :=
        { self with
          warmed_up := warmed_up
          discriminator := { params := o.adam_disc self.discriminator.params } }
      encoder_input := reals
      mrstft_loss := mrstft_loss
      l1_time_loss := l1_time_loss
      loss_dis := loss_dis
      loss_adv := loss_adv
      feature_matching_distance := feature_matching_distance
      kl := encoder_info.kl
      loss := loss_dis
      backward_loss := loss_dis
      stepped := WhichOpt.disc
      log_dict := [("train/discriminator_loss", loss_dis)] }
  -- Train the generator
  else
    let loss_adv_w := (1/10 : ℚ) * loss_adv
    let feature_matching_w := (10 : ℚ) * feature_matching_distance
    -- Combine spectral loss, KL loss, time-domain loss, and adversarial loss
    let loss0 := mrstft_loss + loss_adv_w + feature_matching_w
    let kl_loss := (1/1000 : ℚ) * encoder_info.kl
    let loss :=
      if self.autoencoder.bottleneck = "vae" then loss0 + kl_loss else loss0
    { wrapper :=
        { self with
          warmed_up := warmed_up
          autoencoder :=
            { self.autoencoder with params := o.adam_gen self.autoencoder.params } }
      encoder_input := reals
      mrstft_loss := mrstft_loss
      l1_time_loss := l1_time_loss
      loss_dis := loss_dis
      loss_adv := loss_adv
      feature_matching_distance := feature_matching_distance
      kl := encoder_info.kl
      loss := loss
      backward_loss := loss
      stepped := WhichOpt.gen
      log_dict :=
        [("train/loss", loss),
         ("train/mrstft_loss", mrstft_loss),
         ("train/l1_time_loss", l1_time_loss),
         ("train/loss_adv", loss_adv_w),
         ("train/feature_matching", feature_matching_w),
         ("train/latent_std", o.std latents)] ++
        (if self.autoencoder.bottleneck = "vae" then [("train/kl_loss", kl_loss)] else []) }

/-- A training run: the wrapper state after `n` training steps, where the
`k`-th step runs with `global_step = k` (Lightning increments the counter
once per step). -/
def run_steps (w0 : AutoencoderTrainingWrapper) (o : Nat → Oracles)
    (batches : Nat → Tensor × Unit) : Nat → AutoencoderTrainingWrapper
  | 0 => w0
  | n + 1 => (training_step (run_steps w0 o batches n) n (o n) (batches n)).wrapper

/-- Embedding of `torch.clamp(x, lo, hi)` on one element. -/
def clampQ (x lo hi : ℚ) : ℚ := min (max x lo) hi

/-- Float-to-integer truncation toward zero, the rounding used by
`.to(torch.int16)`. -/
def truncToInt (q : ℚ) : Int := if 0 ≤ q then ⌊q⌋ else ⌈q⌉

/-- Wraparound (two-complement style) cast of an integer into the int16 range, the overflow
behaviour of `.to(torch.int16)`. -/
def toInt16 (v : Int) : Int := (v + 32768) % 65536 - 32768

/-- The wav conversion `x.clamp(-1, 1).mul(32767).to(torch.int16)` applied
elementwise (source lines 176 and 180). -/
def wavInt16 (t : Tensor) : IntTensor :=
  { shape := t.shape
    data := t.data.map (fun x => toInt16 (truncToInt (clampQ x (-1) 1 * 32767))) }

/-- Zero-pad `global_step` to 8 digits, the `{step:08}` format used in the
demo wav filenames. -/
def pad8 (n : Int) : String :=
  let s := toString n
  if s.length < 8 then String.mk (List.replicate (8 - s.length) '0') ++ s else s

/-- A value logged to the experiment tracker: `wandb.Audio`, `wandb.Image`
(wrapping a rendered image), or the point-cloud figure. -/
inductive LogValue where
  | audio (filename : String) (sample_rate : Nat) (caption : String)
  | image (payload : Tensor)
  | pointCloud (payload : Tensor)
deriving DecidableEq

/-- State of `AutoencoderDemoCallback`. -/
structure AutoencoderDemoCallback where
  demo_every : Nat
  demo_samples : Nat
  sample_rate : Nat
  last_demo_step : Int
deriving DecidableEq

/-- Oracles for the external calls made by the demo body; each fallible
call returns `Except` so a raised Python exception is an `.error`. -/
structure DemoOracles where
  next_demo : Except String (Tensor × Unit)
  encode : Tensor → Except String Tensor
  decode : Tensor → Except String Tensor
  rearrange_bdn : Tensor → Except String Tensor
  save_wav : String → IntTensor → Except String Unit
  pca_point_cloud : Tensor → Tensor
  tokens_spectrogram_image : Tensor → Tensor
  audio_spectrogram_image : IntTensor → Tensor

/-- The body of the `try` block in `on_train_batch_end` (source lines
156-197): returns the wav files actually written so far, and either the
dict passed to `experiment.log` or the exception that escaped the body. -/
def demo_body (self : AutoencoderDemoCallback) (global_step : Int)
    (o : DemoOracles) :
    List (String × IntTensor) × Except String (List (String × LogValue)) :=
  match o.next_demo with
  | .error e => ([], .error e)
  | .ok (demo_reals, _) =>
    match o.encode demo_reals with
    | .error e => ([], .error e)
    | .ok latents =>
      match o.decode latents with
      | .error e => ([], .error e)
      | .ok fakes =>
        -- Put the demos together
        match o.rearrange_bdn fakes with
        | .error e => ([], .error e)
        | .ok fakes2 =>
          match o.rearrange_bdn demo_reals with
          | .error e => ([], .error e)
          | .ok demo_reals2 =>
            let filename := "recon_" ++ pad8 global_step ++ ".wav"
            let fakes3 := wavInt16 fakes2
            match o.save_wav filename fakes3 with
            | .error e => ([], .error e)
            | .ok _ =>
              let reals_filename := "reals_" ++ pad8 global_step ++ ".wav"
              let demo_reals3 := wavInt16 demo_reals2
              match o.save_wav reals_filename demo_reals3 with
              | .error e => ([(filename, fakes3)], .error e)
              | .ok _ =>
                ([(filename, fakes3), (reals_filename, demo_reals3)],
                 .ok [("recon", LogValue.audio filename self.sample_rate "Reconstructed"),
                      ("real", LogValue.audio reals_filename self.sample_rate "Real"),
                      ("embeddings_3dpca", LogValue.pointCloud (o.pca_point_cloud latents)),
                      ("embeddings_spec", LogValue.image (o.tokens_spectrogram_image latents)),
                      ("real_melspec_left", LogValue.image (o.audio_spectrogram_image demo_reals3)),
                      ("recon_melspec_left", LogValue.image (o.audio_spectrogram_image fakes3))])

/-- Observable outcome of one `on_train_batch_end` call: the mutated
callback, the dict and step passed to `experiment.log` (if any), the wav
files written, and the exception message printed (if any). The function
is total: no exception escapes it. -/
structure CallbackResult where
  callback : AutoencoderDemoCallback
  logged : Option (List (String × LogValue) × Int)
  saved : List (String × IntTensor)
  printed : Option String
deriving DecidableEq

/-- Embedding of `AutoencoderDemoCallback.on_train_batch_end` (source lines 149-199). -/
def on_train_batch_end (self : AutoencoderDemoCallback) (global_step : Int)
    (o : DemoOracles) : CallbackResult :=
  if (global_step - 1) % (self.demo_every : Int) ≠ 0 ∨
      self.last_demo_step = global_step then
    { callback := self, logged := none, saved := [], printed := none }
  else
    let self2 := { self with last_demo_step := global_step }
    match demo_body self2 global_step o with
    | (sv, .ok ld) =>
      { callback := self2, logged := some (ld, global_step), saved := sv, printed := none }
    | (sv, .error e) =>
      { callback := self2, logged := none, saved := sv, printed := some e }

/-! ### Concrete fixtures used by witnesses -/

/-- Oracle fixture: constant external losses, identity model, `kl = 7`,
`sdstft = 0`, `l1_loss = 5`, warmed-up discriminator losses `(3, 20, 2)`. -/
def oracles0 : Oracles :=
  { encode := fun t => (t, { kl := 7 })
    decode := fun t => t
    sdstft := fun _ _ => 0
    l1_loss := fun _ _ => 5
    disc_loss := fun _ _ => (3, 20, 2)
    std := fun _ => 1
    adam_gen := fun p => p + 1
    adam_disc := fun p => p + 1 }

/-- A 3-dimensional batch tensor (no WebDataset dimension). -/
def batch0 : Tensor × Unit := ({ shape := [1, 2, 2], data := [0, 0, 0, 0] }, ())

/-- Wrapper fixture with the default warm-up of 150000 steps, non-vae. -/
def wrapper0 : AutoencoderTrainingWrapper :=
  { autoencoder := { bottleneck := "tanh", params := 0 }
    discriminator := { params := 0 }
    warmed_up := false
    warmup_steps := 150000
    lr := 1/10000 }

/-- Wrapper fixture with a short warm-up of 2 steps, vae bottleneck. -/
def wrapper1 : AutoencoderTrainingWrapper :=
  { autoencoder := { bottleneck := "vae", params := 0 }
    discriminator := { params := 0 }
    warmed_up := false
    warmup_steps := 2
    lr := 1/10000 }

/-! ### Claim theorems -/

/-- C1 (code bug): on a generator step, the loss passed to
`manual_backward` omits the time-domain L1 loss. At `global_step = 0`
(generator branch, not warmed up) with `sdstft = 0` and `l1_loss = 5`, the
backward loss is `0` although `l1_time_loss = 5`: the claimed combination
would be `5`. The source computes and logs `l1_time_loss` but never adds
it to `loss`, contradicting its own comment "Combine spectral loss, KL
loss, time-domain loss, and adversarial loss". -/
theorem C1_generator_loss_omits_l1_time_loss :
    (training_step wrapper0 0 oracles0 batch0).stepped = WhichOpt.gen ∧
    (training_step wrapper0 0 oracles0 batch0).l1_time_loss = 5 ∧
    (training_step wrapper0 0 oracles0 batch0).backward_loss = 0 := by
  with_unfolding_all decide

/-- C2: after warm-up (`warmup_steps ≤ global_step`), exactly one
optimizer is stepped: the discriminator optimizer on odd steps (with the
generator parameters untouched), the generator optimizer on even steps
(with the discriminator parameters untouched). -/
theorem C2_alternating_optimizer_steps (self : AutoencoderTrainingWrapper)
    (gs : Nat) (o : Oracles) (batch : Tensor × Unit)
    (h : self.warmup_steps ≤ gs) :
    (gs % 2 = 1 →
       (training_step self gs o batch).stepped = WhichOpt.disc ∧
       (training_step self gs o batch).wrapper.autoencoder.params =
         self.autoencoder.params) ∧
    (gs % 2 = 0 →
       (training_step self gs o batch).stepped = WhichOpt.gen ∧
       (training_step self gs o batch).wrapper.discriminator.params =
         self.discriminator.params) := by
  constructor
  · intro h2
    simp [training_step, h, h2]
  · intro h2
    simp [training_step, h, h2]

/-- Witness for C2 at `warmup_steps = 2`, steps 3 (odd) and 4 (even). -/
theorem C2_alternating_optimizer_steps_witness :
    ((training_step wrapper1 3 oracles0 batch0).stepped = WhichOpt.disc ∧
     (training_step wrapper1 3 oracles0 batch0).wrapper.autoencoder.params =
       wrapper1.autoencoder.params) ∧
    ((training_step wrapper1 4 oracles0 batch0).stepped = WhichOpt.gen ∧
     (training_step wrapper1 4 oracles0 batch0).wrapper.discriminator.params =
       wrapper1.discriminator.params) :=
  ⟨(C2_alternating_optimizer_steps wrapper1 3 oracles0 batch0 (by decide)).1 (by decide),
   (C2_alternating_optimizer_steps wrapper1 4 oracles0 batch0 (by decide)).2 (by decide)⟩

/-- C7: `configure_optimizers` returns exactly two Adam optimizers, the
first over the autoencoder parameters and the second over the
discriminator parameters, both with the per-wrapper `lr` and betas
`(0.5, 0.9)`. -/
theorem C7_configure_optimizers_two_adams (self : AutoencoderTrainingWrapper) :
    (configure_optimizers self).length = 2 ∧
    (configure_optimizers self).get? 0 =
      some { params := ParamsRef.autoencoderParams, lr := self.lr,
             beta1 := 1/2, beta2 := 9/10 } ∧
    (configure_optimizers self).get? 1 =
      some { params := ParamsRef.discriminatorParams, lr := self.lr,
             beta1 := 1/2, beta2 := 9/10 } :=
  ⟨rfl, rfl, rfl⟩

/-- The tensor handed to `autoencoder.encode` is the batch tensor with the
WebDataset squeeze applied (helper shared by several claims). -/
theorem training_step_encoder_input (s : AutoencoderTrainingWrapper)
    (gs : Nat) (o : Oracles) (b : Tensor × Unit) :
    (training_step s gs o b).encoder_input =
      (if b.1.shape.length = 4 ∧ b.1.shape.headD 0 = 1 then
        { shape := b.1.shape.tail, data := b.1.data.take b.1.shape.tail.prod }
      else b.1) := by
  simp only [training_step]
  split <;> split <;> rfl

/-- C10: on a well-formed batch tensor, a 4-dimensional input whose first
dimension is 1 has that dimension removed (same data) before encoding;
any other shape is passed to the encoder unchanged. -/
theorem C10_webdataset_squeeze (s : AutoencoderTrainingWrapper) (gs : Nat)
    (o : Oracles) (b : Tensor × Unit)
    (hwf : b.1.data.length = b.1.shape.prod) :
    (∀ a c d, b.1.shape = [1, a, c, d] →
       (training_step s gs o b).encoder_input =
         { shape := [a, c, d], data := b.1.data }) ∧
    (¬(b.1.shape.length = 4 ∧ b.1.shape.headD 0 = 1) →
       (training_step s gs o b).encoder_input = b.1) := by
  constructor
  · intro a c d hsh
    rw [training_step_encoder_input]
    have hc : b.1.shape.length = 4 ∧ b.1.shape.headD 0 = 1 := by
      rw [hsh]; exact ⟨rfl, rfl⟩
    rw [if_pos hc, hsh]
    have htake : b.1.data.take ([a, c, d] : List Nat).prod = b.1.data := by
      apply List.take_of_length_le
      rw [hwf, hsh]
      simp [List.prod_cons]
    rw [show ([1, a, c, d] : List Nat).tail = [a, c, d] from rfl, htake]
  · intro hc
    rw [training_step_encoder_input, if_neg hc]

/-- Witness for C10: a `[1, 2, 1, 1]` batch is squeezed to `[2, 1, 1]`,
and the 3-dimensional `batch0` is passed through unchanged. -/
theorem C10_webdataset_squeeze_witness :
    (training_step wrapper0 0 oracles0
        ({ shape := [1, 2, 1, 1], data := [3, 4] }, ())).encoder_input =
      { shape := [2, 1, 1], data := [3, 4] } ∧
    (training_step wrapper0 0 oracles0 batch0).encoder_input = batch0.1 :=
  ⟨(C10_webdataset_squeeze wrapper0 0 oracles0
      ({ shape := [1, 2, 1, 1], data := [3, 4] }, ()) (by decide)).1 2 1 1 rfl,
   (C10_webdataset_squeeze wrapper0 0 oracles0 batch0 (by decide)).2 (by decide)⟩

/-- The training step never changes `warmup_steps` (helper). -/
theorem training_step_warmup_steps (s : AutoencoderTrainingWrapper)
    (gs : Nat) (o : Oracles) (b : Tensor × Unit) :
    (training_step s gs o b).wrapper.warmup_steps = s.warmup_steps := by
  simp only [training_step]
  split <;> split <;> rfl

/-- The training step updates `warmed_up` exactly as lines 64-65 do
(helper). -/
theorem training_step_warmed_up (s : AutoencoderTrainingWrapper)
    (gs : Nat) (o : Oracles) (b : Tensor × Unit) :
    (training_step s gs o b).wrapper.warmed_up =
      (if s.warmup_steps ≤ gs then true else s.warmed_up) := by
  simp only [training_step]
  split <;> split <;> rfl

/-- The field `warmup_steps` is constant along a run (helper). -/
theorem run_steps_warmup_steps (w0 : AutoencoderTrainingWrapper)
    (o : Nat → Oracles) (b : Nat → Tensor × Unit) (n : Nat) :
    (run_steps w0 o b n).warmup_steps = w0.warmup_steps := by
  induction n with
  | zero => rfl
  | succ n ih => rw [run_steps, training_step_warmup_steps, ih]

/-- Along a run started not warmed up, `warmed_up` after `n` steps is true
exactly when some executed step had `global_step ≥ warmup_steps`, i.e.
when `warmup_steps < n` (helper). -/
theorem run_steps_warmed_up (w0 : AutoencoderTrainingWrapper)
    (o : Nat → Oracles) (b : Nat → Tensor × Unit)
    (hw : w0.warmed_up = false) (n : Nat) :
    (run_steps w0 o b n).warmed_up = decide (w0.warmup_steps < n) := by
  induction n with
  | zero => simp [run_steps, hw]
  | succ n ih =>
    rw [run_steps, training_step_warmed_up, ih, run_steps_warmup_steps]
    by_cases h : w0.warmup_steps ≤ n
    · simp [h, Nat.lt_succ_of_le h]
    · have h2 : ¬ w0.warmup_steps < n := fun hh => h (Nat.le_of_lt hh)
      have h3 : ¬ w0.warmup_steps < n + 1 := by
        rw [Nat.lt_succ_iff]; exact h
      simp [h, h2, h3]

/-- A step taken while not warmed up and before `warmup_steps` uses zero
discriminator, adversarial and feature-matching losses, takes the
generator branch, and leaves the discriminator untouched (helper). -/
theorem training_step_not_warmed (s : AutoencoderTrainingWrapper)
    (gs : Nat) (o : Oracles) (b : Tensor × Unit)
    (h1 : s.warmed_up = false) (h2 : ¬ s.warmup_steps ≤ gs) :
    (training_step s gs o b).loss_dis = 0 ∧
    (training_step s gs o b).loss_adv = 0 ∧
    (training_step s gs o b).feature_matching_distance = 0 ∧
    (training_step s gs o b).stepped = WhichOpt.gen ∧
    (training_step s gs o b).wrapper.discriminator = s.discriminator := by
  simp [training_step, h1, h2]

/-- C3: along any run started with `warmed_up = False`, a step executed
with `global_step < warmup_steps` sees zero discriminator loss, zero
adversarial loss and zero feature-matching distance, never takes the
discriminator branch (the generator optimizer is the one stepped and the
discriminator is unchanged), and the `warmed_up` flag after `n` steps is
true exactly when some step ran with `global_step ≥ warmup_steps`
(equivalently `warmup_steps < n`), so it is never reset once set. -/
theorem C3_warmup_schedule (w0 : AutoencoderTrainingWrapper)
    (o : Nat → Oracles) (b : Nat → Tensor × Unit)
    (hw : w0.warmed_up = false) (n : Nat) :
    ((run_steps w0 o b n).warmed_up = decide (w0.warmup_steps < n)) ∧
    (n < w0.warmup_steps →
       (training_step (run_steps w0 o b n) n (o n) (b n)).loss_dis = 0 ∧
       (training_step (run_steps w0 o b n) n (o n) (b n)).loss_adv = 0 ∧
       (training_step (run_steps w0 o b n) n (o n) (b n)).feature_matching_distance = 0 ∧
       (training_step (run_steps w0 o b n) n (o n) (b n)).stepped = WhichOpt.gen ∧
       (training_step (run_steps w0 o b n) n (o n) (b n)).wrapper.discriminator =
         (run_steps w0 o b n).discriminator) := by
  refine ⟨run_steps_warmed_up w0 o b hw n, fun hn => ?_⟩
  have hws : (run_steps w0 o b n).warmup_steps = w0.warmup_steps :=
    run_steps_warmup_steps w0 o b n
  have h1 : (run_steps w0 o b n).warmed_up = false := by
    rw [run_steps_warmed_up w0 o b hw n]
    simp [Nat.not_lt_of_lt hn, Nat.lt_asymm hn]
  have h2 : ¬ (run_steps w0 o b n).warmup_steps ≤ n := by
    rw [hws]; exact Nat.not_le_of_lt hn
  exact training_step_not_warmed _ n (o n) (b n) h1 h2

/-- Witness for C3: short-warm-up wrapper, step 1 of 2 warm-up steps. -/
theorem C3_warmup_schedule_witness :
    ((run_steps wrapper1 (fun _ => oracles0) (fun _ => batch0) 1).warmed_up =
       decide (wrapper1.warmup_steps < 1)) ∧
    ((training_step (run_steps wrapper1 (fun _ => oracles0) (fun _ => batch0) 1)
        1 oracles0 batch0).loss_dis = 0 ∧
     (training_step (run_steps wrapper1 (fun _ => oracles0) (fun _ => batch0) 1)
        1 oracles0 batch0).stepped = WhichOpt.gen) :=
  ⟨(C3_warmup_schedule wrapper1 (fun _ => oracles0) (fun _ => batch0) rfl 1).1,
   ⟨((C3_warmup_schedule wrapper1 (fun _ => oracles0) (fun _ => batch0) rfl 1).2
       (by decide)).1,
    ((C3_warmup_schedule wrapper1 (fun _ => oracles0) (fun _ => batch0) rfl 1).2
       (by decide)).2.2.2.1⟩⟩

/-- C4: on a generator step, the backward loss carries the KL term
`1e-3 * kl` and `train/kl_loss` is logged exactly when the bottleneck is
`"vae"`; for any other bottleneck the backward loss is the KL-free
combination and no `train/kl_loss` entry is logged. -/
theorem C4_kl_term_iff_vae (self : AutoencoderTrainingWrapper) (gs : Nat)
    (o : Oracles) (batch : Tensor × Unit) (h : gs % 2 = 0) :
    (self.autoencoder.bottleneck = "vae" →
       (training_step self gs o batch).backward_loss =
         (training_step self gs o batch).mrstft_loss +
           (1/10) * (training_step self gs o batch).loss_adv +
           10 * (training_step self gs o batch).feature_matching_distance +
           (1/1000) * (training_step self gs o batch).kl ∧
       ("train/kl_loss", (1/1000) * (training_step self gs o batch).kl) ∈
         (training_step self gs o batch).log_dict) ∧
    (self.autoencoder.bottleneck ≠ "vae" →
       (training_step self gs o batch).backward_loss =
         (training_step self gs o batch).mrstft_loss +
           (1/10) * (training_step self gs o batch).loss_adv +
           10 * (training_step self gs o batch).feature_matching_distance ∧
       "train/kl_loss" ∉ (training_step self gs o batch).log_dict.map Prod.fst) := by
  constructor
  · intro hb
    simp [training_step, h, hb]
  · intro hb
    simp [training_step, h, hb]

/-- Witness for C4: vae wrapper at even step 2 and non-vae wrapper at
even step 0. -/
theorem C4_kl_term_iff_vae_witness :
    ((training_step wrapper1 2 oracles0 batch0).backward_loss =
       (training_step wrapper1 2 oracles0 batch0).mrstft_loss +
         (1/10) * (training_step wrapper1 2 oracles0 batch0).loss_adv +
         10 * (training_step wrapper1 2 oracles0 batch0).feature_matching_distance +
         (1/1000) * (training_step wrapper1 2 oracles0 batch0).kl ∧
     ("train/kl_loss", (1/1000) * (training_step wrapper1 2 oracles0 batch0).kl) ∈
       (training_step wrapper1 2 oracles0 batch0).log_dict) ∧
    "train/kl_loss" ∉ (training_step wrapper0 0 oracles0 batch0).log_dict.map Prod.fst :=
  ⟨(C4_kl_term_iff_vae wrapper1 2 oracles0 batch0 rfl).1 rfl,
   ((C4_kl_term_iff_vae wrapper0 0 oracles0 batch0 rfl).2 (by decide)).2⟩

/-! ### Demo callback fixtures -/

/-- A 3-dimensional demo batch `(b, d, n) = (1, 2, 3)`. -/
def tensor3 : Tensor := { shape := [1, 2, 3], data := [0, 1/2, 1, -1, 2, -2] }

/-- Demo oracle fixture where every external call succeeds. -/
def demo_oracles_ok : DemoOracles :=
  { next_demo := Except.ok (tensor3, ())
    encode := fun t => Except.ok t
    decode := fun t => Except.ok t
    rearrange_bdn := fun t =>
      match t.shape with
      | [b, d, n] => Except.ok { shape := [d, b * n], data := t.data }
      | _ => Except.error "EinopsError"
    save_wav := fun _ _ => Except.ok ()
    pca_point_cloud := fun t => t
    tokens_spectrogram_image := fun t => t
    audio_spectrogram_image := fun t => { shape := t.shape, data := [] } }

/-- Demo oracle fixture where the demo dataloader raises. -/
def demo_oracles_fail : DemoOracles :=
  { demo_oracles_ok with next_demo := Except.error "StopIteration" }

/-- Demo callback fixture with the constructor defaults. -/
def callback0 : AutoencoderDemoCallback :=
  { demo_every := 2000, demo_samples := 65536, sample_rate := 48000,
    last_demo_step := -1 }

/-- C5: `on_train_batch_end` is a no-op (state unchanged, nothing logged,
saved or printed) unless `(global_step - 1) % demo_every = 0` and no demo
was already rendered at this step; when a demo is attempted,
`last_demo_step` is set to the current step, so a second call at the same
step is a no-op. -/
theorem C5_demo_gating (cb : AutoencoderDemoCallback) (gs : Int)
    (o : DemoOracles) :
    (((gs - 1) % (cb.demo_every : Int) ≠ 0 ∨ cb.last_demo_step = gs) →
       on_train_batch_end cb gs o =
         { callback := cb, logged := none, saved := [], printed := none }) ∧
    ((gs - 1) % (cb.demo_every : Int) = 0 ∧ cb.last_demo_step ≠ gs →
       (on_train_batch_end cb gs o).callback.last_demo_step = gs) := by
  constructor
  · intro h
    simp only [on_train_batch_end, if_pos h]
  · rintro ⟨h1, h2⟩
    have hng : ¬((gs - 1) % (cb.demo_every : Int) ≠ 0 ∨ cb.last_demo_step = gs) := by
      push_neg
      exact ⟨h1, h2⟩
    simp only [on_train_batch_end]
    rw [if_neg hng]
    rcases hdb : demo_body { cb with last_demo_step := gs } gs o with ⟨sv, res⟩
    cases res <;> simp [hdb]

/-- Witness for C5: step 5 is gated off; step 1 attempts a demo and
records `last_demo_step = 1`. -/
theorem C5_demo_gating_witness :
    on_train_batch_end callback0 5 demo_oracles_ok =
      { callback := callback0, logged := none, saved := [], printed := none } ∧
    (on_train_batch_end callback0 1 demo_oracles_ok).callback.last_demo_step = 1 :=
  ⟨(C5_demo_gating callback0 5 demo_oracles_ok).1 (by decide),
   (C5_demo_gating callback0 1 demo_oracles_ok).2 (by decide)⟩

/-- If the demo body runs to completion, the dict it builds consists of
exactly the six demo entries of source lines 184-195 (helper). -/
theorem demo_body_ok_log (cb : AutoencoderDemoCallback) (gs : Int)
    (o : DemoOracles) (sv : List (String × IntTensor))
    (ld : List (String × LogValue))
    (h : demo_body cb gs o = (sv, Except.ok ld)) :
    ∃ latents fakes2 reals2,
      ld = [("recon",
              LogValue.audio ("recon_" ++ pad8 gs ++ ".wav") cb.sample_rate
                "Reconstructed"),
            ("real",
              LogValue.audio ("reals_" ++ pad8 gs ++ ".wav") cb.sample_rate
                "Real"),
            ("embeddings_3dpca", LogValue.pointCloud (o.pca_point_cloud latents)),
            ("embeddings_spec", LogValue.image (o.tokens_spectrogram_image latents)),
            ("real_melspec_left",
              LogValue.image (o.audio_spectrogram_image (wavInt16 reals2))),
            ("recon_melspec_left",
              LogValue.image (o.audio_spectrogram_image (wavInt16 fakes2)))] := by
  rcases h1 : o.next_demo with e | du
  · simp [demo_body, h1] at h
  · rcases du with ⟨dr, u⟩
    rcases h2 : o.encode dr with e | latents
    · simp [demo_body, h1, h2] at h
    · rcases h3 : o.decode latents with e | fakes
      · simp [demo_body, h1, h2, h3] at h
      · rcases h4 : o.rearrange_bdn fakes with e | fakes2
        · simp [demo_body, h1, h2, h3, h4] at h
        · rcases h5 : o.rearrange_bdn dr with e | reals2
          · simp [demo_body, h1, h2, h3, h4, h5] at h
          · rcases h6 : o.save_wav ("recon_" ++ pad8 gs ++ ".wav") (wavInt16 fakes2)
              with e | u1
            · simp [demo_body, h1, h2, h3, h4, h5, h6] at h
            · rcases h7 : o.save_wav ("reals_" ++ pad8 gs ++ ".wav") (wavInt16 reals2)
                with e | u2
              · simp [demo_body, h1, h2, h3, h4, h5, h6, h7] at h
              · refine ⟨latents, fakes2, reals2, ?_⟩
                simp only [demo_body, h1, h2, h3, h4, h5, h6, h7,
                  Prod.mk.injEq, Except.ok.injEq] at h
                exact h.2.symm

/-- C6: whenever `on_train_batch_end` logs a dict (a demo was rendered
without an exception), it is logged at the current global step and
contains the reconstructed audio, the real audio, a 3-D PCA point cloud
of the latents, a spectrogram image of the latents, and mel-spectrogram
images of the real and the reconstructed audio. -/
theorem C6_demo_log_contents (cb : AutoencoderDemoCallback) (gs : Int)
    (o : DemoOracles) (ld : List (String × LogValue)) (s : Int)
    (h : (on_train_batch_end cb gs o).logged = some (ld, s)) :
    s = gs ∧
    ∃ latents fakes2 reals2,
      ld = [("recon",
              LogValue.audio ("recon_" ++ pad8 gs ++ ".wav") cb.sample_rate
                "Reconstructed"),
            ("real",
              LogValue.audio ("reals_" ++ pad8 gs ++ ".wav") cb.sample_rate
                "Real"),
            ("embeddings_3dpca", LogValue.pointCloud (o.pca_point_cloud latents)),
            ("embeddings_spec", LogValue.image (o.tokens_spectrogram_image latents)),
            ("real_melspec_left",
              LogValue.image (o.audio_spectrogram_image (wavInt16 reals2))),
            ("recon_melspec_left",
              LogValue.image (o.audio_spectrogram_image (wavInt16 fakes2)))] := by
  simp only [on_train_batch_end] at h
  split at h
  · simp at h
  · rcases hdb : demo_body { cb with last_demo_step := gs } gs o with ⟨sv, res⟩
    rw [hdb] at h
    cases res with
    | error e => simp at h
    | ok ld2 =>
      simp only [Option.some.injEq, Prod.mk.injEq] at h
      obtain ⟨hld, hs⟩ := h
      refine ⟨hs.symm, ?_⟩
      rw [← hld]
      exact demo_body_ok_log { cb with last_demo_step := gs } gs o sv ld2 hdb

/-- The concrete dict produced by `demo_oracles_ok` at step 1. -/
def ld_demo : List (String × LogValue) :=
  [("recon", LogValue.audio ("recon_" ++ pad8 1 ++ ".wav") 48000 "Reconstructed"),
   ("real", LogValue.audio ("reals_" ++ pad8 1 ++ ".wav") 48000 "Real"),
   ("embeddings_3dpca", LogValue.pointCloud tensor3),
   ("embeddings_spec", LogValue.image tensor3),
   ("real_melspec_left", LogValue.image { shape := [2, 3], data := [] }),
   ("recon_melspec_left", LogValue.image { shape := [2, 3], data := [] })]

/-- Witness for C6 at `callback0`, step 1, all-success oracles. -/
theorem C6_demo_log_contents_witness :
    (1 : Int) = 1 ∧
    ∃ latents fakes2 reals2,
      ld_demo =
        [("recon",
           LogValue.audio ("recon_" ++ pad8 1 ++ ".wav") callback0.sample_rate
             "Reconstructed"),
         ("real",
           LogValue.audio ("reals_" ++ pad8 1 ++ ".wav") callback0.sample_rate
             "Real"),
         ("embeddings_3dpca",
           LogValue.pointCloud (demo_oracles_ok.pca_point_cloud latents)),
         ("embeddings_spec",
           LogValue.image (demo_oracles_ok.tokens_spectrogram_image latents)),
         ("real_melspec_left",
           LogValue.image (demo_oracles_ok.audio_spectrogram_image (wavInt16 reals2))),
         ("recon_melspec_left",
           LogValue.image (demo_oracles_ok.audio_spectrogram_image (wavInt16 fakes2)))] :=
  C6_demo_log_contents callback0 1 demo_oracles_ok ld_demo 1
    (by with_unfolding_all rfl)

/-- C8: when the demo body raises, `on_train_batch_end` still returns
normally: the exception is only recorded as printed, nothing is logged,
and since `last_demo_step` was set before the `try` block, a second call
at the same global step is a complete no-op (the demo is not retried). -/
theorem C8_demo_exception_swallowed (cb : AutoencoderDemoCallback) (gs : Int)
    (o : DemoOracles) (sv : List (String × IntTensor)) (e : String)
    (h1 : (gs - 1) % (cb.demo_every : Int) = 0) (h2 : cb.last_demo_step ≠ gs)
    (he : demo_body { cb with last_demo_step := gs } gs o = (sv, Except.error e)) :
    on_train_batch_end cb gs o =
      { callback := { cb with last_demo_step := gs }, logged := none,
        saved := sv, printed := some e } ∧
    on_train_batch_end { cb with last_demo_step := gs } gs o =
      { callback := { cb with last_demo_step := gs }, logged := none,
        saved := [], printed := none } := by
  constructor
  · have hng : ¬((gs - 1) % (cb.demo_every : Int) ≠ 0 ∨ cb.last_demo_step = gs) := by
      push_neg
      exact ⟨h1, h2⟩
    simp only [on_train_batch_end]
    rw [if_neg hng, he]
  · simp [on_train_batch_end]

/-- Witness for C8: the demo dataloader raises `StopIteration` at step 1. -/
theorem C8_demo_exception_swallowed_witness :
    on_train_batch_end callback0 1 demo_oracles_fail =
      { callback := { callback0 with last_demo_step := 1 }, logged := none,
        saved := [], printed := some "StopIteration" } ∧
    on_train_batch_end { callback0 with last_demo_step := 1 } 1 demo_oracles_fail =
      { callback := { callback0 with last_demo_step := 1 }, logged := none,
        saved := [], printed := none } :=
  C8_demo_exception_swallowed callback0 1 demo_oracles_fail [] "StopIteration"
    (by decide) (by decide) (by with_unfolding_all rfl)

/-- Clamped samples lie in `[-1, 1]` (helper). -/
theorem clampQ_bounds (q : ℚ) :
    -1 ≤ clampQ q (-1) 1 ∧ clampQ q (-1) 1 ≤ 1 :=
  ⟨le_min (le_max_right q (-1)) (by norm_num), min_le_right _ _⟩

/-- Truncation toward zero of a rational in `[-32767, 32767]` stays in
`[-32767, 32767]` (helper). -/
theorem truncToInt_bounds (v : ℚ) (h1 : -32767 ≤ v) (h2 : v ≤ 32767) :
    -32767 ≤ truncToInt v ∧ truncToInt v ≤ 32767 := by
  unfold truncToInt
  by_cases h0 : 0 ≤ v
  · rw [if_pos h0]
    constructor
    · have h3 : (0 : Int) ≤ ⌊v⌋ := Int.floor_nonneg.mpr h0
      omega
    · have h3 : (⌊v⌋ : ℚ) ≤ 32767 := le_trans (Int.floor_le v) h2
      exact_mod_cast h3
  · rw [if_neg h0]
    push_neg at h0
    constructor
    · have h3 : (-32767 : ℚ) ≤ (⌈v⌉ : ℚ) := le_trans h1 (Int.le_ceil v)
      exact_mod_cast h3
    · have h3 : ⌈v⌉ ≤ (0 : Int) := by
        rw [show ((0 : Int) : Int) = ((0 : Int)) from rfl]
        exact Int.ceil_le.mpr (by exact_mod_cast le_of_lt h0)
      omega

/-- An integer already inside the int16 range is unchanged by the
wraparound cast: the cast cannot overflow (helper). -/
theorem toInt16_eq_self (w : Int) (h1 : -32768 ≤ w) (h2 : w ≤ 32767) :
    toInt16 w = w := by
  unfold toInt16
  have h3 : (w + 32768) % 65536 = w + 32768 :=
    Int.emod_eq_of_lt (by omega) (by omega)
  omega

/-- Every element of a `wavInt16` conversion lies in `[-32767, 32767]`
(helper). -/
theorem wavInt16_mem_bounds (t : Tensor) :
    ∀ x ∈ (wavInt16 t).data, -32767 ≤ x ∧ x ≤ 32767 := by
  intro x hx
  simp only [wavInt16, List.mem_map] at hx
  obtain ⟨q, _, rfl⟩ := hx
  have hb := truncToInt_bounds (clampQ q (-1) 1 * 32767)
    (by nlinarith [clampQ_bounds q]) (by nlinarith [clampQ_bounds q])
  rw [toInt16_eq_self _ (by omega) hb.2]
  exact hb

/-- Every wav file the demo body writes contains only `wavInt16`-converted
samples (helper). -/
theorem demo_body_saved_bounds (cb : AutoencoderDemoCallback) (gs : Int)
    (o : DemoOracles) :
    ∀ p ∈ (demo_body cb gs o).1, ∀ x ∈ p.2.data, -32767 ≤ x ∧ x ≤ 32767 := by
  intro p hp
  revert hp
  simp only [demo_body]
  split
  · simp
  · split
    · simp
    · split
      · simp
      · split
        · simp
        · split
          · simp
          · split
            · simp
            · split
              · intro hp
                simp only [List.mem_singleton] at hp
                subst hp
                exact wavInt16_mem_bounds _
              · intro hp
                simp only [List.mem_cons, List.mem_singleton] at hp
                rcases hp with hp | hp | hp
                · subst hp
                  exact wavInt16_mem_bounds _
                · subst hp
                  exact wavInt16_mem_bounds _
                · exact absurd hp (List.not_mem_nil p)

/-- C9: the wav conversion `clamp(-1, 1).mul(32767).to(int16)` always
produces samples in `[-32767, 32767]`, the int16 wrap is the identity on
them (no overflow), and every sample in every wav file written by the
demo body is in that range. -/
theorem C9_wav_samples_in_range (cb : AutoencoderDemoCallback) (gs : Int)
    (o : DemoOracles) :
    (∀ q : ℚ,
       toInt16 (truncToInt (clampQ q (-1) 1 * 32767)) =
         truncToInt (clampQ q (-1) 1 * 32767) ∧
       -32767 ≤ truncToInt (clampQ q (-1) 1 * 32767) ∧
       truncToInt (clampQ q (-1) 1 * 32767) ≤ 32767) ∧
    (∀ p ∈ (demo_body cb gs o).1, ∀ x ∈ p.2.data, -32767 ≤ x ∧ x ≤ 32767) := by
  constructor
  · intro q
    have hb := truncToInt_bounds (clampQ q (-1) 1 * 32767)
      (by nlinarith [clampQ_bounds q]) (by nlinarith [clampQ_bounds q])
    exact ⟨toInt16_eq_self _ (by omega) hb.2, hb⟩
  · exact demo_body_saved_bounds cb gs o

/-- Witness for C9 at `q = 2` and the first sample of the demo wav. -/
theorem C9_wav_samples_in_range_witness :
    (toInt16 (truncToInt (clampQ 2 (-1) 1 * 32767)) =
       truncToInt (clampQ 2 (-1) 1 * 32767) ∧
     -32767 ≤ truncToInt (clampQ 2 (-1) 1 * 32767) ∧
     truncToInt (clampQ 2 (-1) 1 * 32767) ≤ 32767) ∧
    (-32767 ≤ (0 : Int) ∧ (0 : Int) ≤ 32767) :=
  ⟨(C9_wav_samples_in_range callback0 1 demo_oracles_ok).1 2,
   (C9_wav_samples_in_range callback0 1 demo_oracles_ok).2
     ("recon_" ++ pad8 1 ++ ".wav",
       wavInt16 { shape := [2, 3], data := [0, 1/2, 1, -1, 2, -2] })
     (by with_unfolding_all exact List.Mem.head _) 0
     (by with_unfolding_all exact List.Mem.head _)⟩

end Harmonai
